import Mathlib

/-!
Verification development for the NRF impact assessment worker
(`src/worker/state.py`, `src/worker/config.py`, `src/worker/health.py`,
`src/worker/worker.py`).

Timestamps and durations are modelled as rationals (`ℚ`); Python's
`float("inf")` heartbeat age is modelled as `⊤ : WithTop ℚ`.  The
presentational `round(x, 2)` applied by `_get_liveness_status` to the two
diagnostic numbers is omitted: it only changes how values are printed, and
`round` maps `inf` to `inf`, so no comparison in the code depends on it.
-/

namespace Worker

/-! ## state.py -/

/-- Status code `WorkerStatus.ERROR` (-1) from `state.py`. -/
def ERROR : Int := -1

/-- Status code `WorkerStatus.STOPPED` (0) from `state.py`. -/
def STOPPED : Int := 0

/-- Status code `WorkerStatus.RUNNING` (1) from `state.py`. -/
def RUNNING : Int := 1

/-- Shared state between worker and health server (`WorkerState` in
`state.py`): five independently written scalar cells. -/
structure WorkerState where
  status_flag : Int
  last_heartbeat : ℚ
  ready : Int
  task_start_time : ℚ
  expected_task_duration : ℚ
deriving Repr, DecidableEq

/-- Function `create_shared_state` from `state.py`: status `STOPPED`,
heartbeat 0, not ready, no task in flight. -/
def create_shared_state : WorkerState :=
  { status_flag := STOPPED
    last_heartbeat := 0
    ready := 0
    task_start_time := 0
    expected_task_duration := 0 }

/-! ## config.py -/

/-- Record `WorkerConfig` from `config.py` (the fields the core logic reads). -/
structure WorkerConfig where
  sqs_wait_time_seconds : Int := 20
  heartbeat_timeout : ℚ := 120
  task_timeout_buffer : ℚ := 3 / 2
deriving Repr, DecidableEq

/-- Validator `WorkerConfig.validate_wait_time` from `config.py`: accept `v`
iff `0 ≤ v ≤ 20`, otherwise raise `ValueError`. -/
def validate_wait_time (v : Int) : Except String Int :=
  if 0 ≤ v ∧ v ≤ 20 then .ok v
  else .error s!"Wait time must be between 0 and 20 seconds, got {v}"

/-! ## health.py -/

/-- Expression `now - last_heartbeat if last_heartbeat > 0 else
float("inf")` from `_get_liveness_status`. -/
def heartbeat_age (now lastHb : ℚ) : WithTop ℚ :=
  if lastHb > 0 then ((now - lastHb : ℚ) : WithTop ℚ) else ⊤

/-- The diagnostics dictionary returned by `_get_liveness_status`. -/
structure LivenessStatus where
  healthy : Bool
  ready : Bool
  worker_status_flag : Int
  heartbeat_age_seconds : WithTop ℚ
  is_long_task_running : Bool
  effective_timeout_seconds : ℚ
  is_overtime : Bool
deriving Repr, DecidableEq

/-- Function `_get_liveness_status` from `health.py`: snapshot the shared
state, compute the adaptive timeout and the health verdict. -/
def _get_liveness_status (now : ℚ) (state : WorkerState) (config : WorkerConfig) :
    LivenessStatus :=
  let status_flag := state.status_flag
  let hbAge := heartbeat_age now state.last_heartbeat
  let is_long_task : Bool :=
    decide (state.task_start_time > 0) && decide (state.expected_task_duration > 0)
  let effective_timeout : ℚ :=
    if is_long_task then state.expected_task_duration * config.task_timeout_buffer
    else config.heartbeat_timeout
  let is_overtime : Bool :=
    if is_long_task then decide (now - state.task_start_time > effective_timeout)
    else decide (hbAge > (effective_timeout : WithTop ℚ))
  { healthy := decide (status_flag = RUNNING) && !is_overtime
    ready := decide (state.ready = 1)
    worker_status_flag := status_flag
    heartbeat_age_seconds := hbAge
    is_long_task_running := is_long_task
    effective_timeout_seconds := effective_timeout
    is_overtime := is_overtime }

/-- The JSON body of a `/health` response (`_build_health_response`): the
200 shape carries exactly the two detail fields, the 503 shape carries a
reason string and the full diagnostics. -/
inductive HealthResponse
  | ok (service : String) (heartbeat_age_seconds : WithTop ℚ)
      (is_long_task_running : Bool)
  | unavailable (service : String) (reason : String) (details : LivenessStatus)
deriving Repr, DecidableEq

/-- The constant `"service"` field of both response shapes. -/
def serviceName : String := "nrf-impact-assessment-service"

/-- The status-mismatch reason part built by `_build_health_response`. -/
def statusMismatchReason (flag : Int) : String :=
  s!"worker status is {flag} (expected 1)"

/-- The list `reason_parts` built by `_build_health_response`. -/
def reasonParts (L : LivenessStatus) : List String :=
  (if L.worker_status_flag ≠ RUNNING then [statusMismatchReason L.worker_status_flag]
   else []) ++
  (if L.is_overtime then ["worker is overtime"] else [])

/-- Function `_build_health_response` from `health.py`: 200 payload when
healthy, otherwise 503 with `", ".join(reason_parts) or "unknown"` and the
full diagnostics. -/
def _build_health_response (now : ℚ) (state : WorkerState) (config : WorkerConfig) :
    HealthResponse × Nat :=
  let liveness := _get_liveness_status now state config
  if liveness.healthy then
    (.ok serviceName liveness.heartbeat_age_seconds liveness.is_long_task_running, 200)
  else
    let parts := reasonParts liveness
    let reason := if parts = [] then "unknown" else String.intercalate ", " parts
    (.unavailable serviceName reason liveness, 503)

/-! ## worker.py -/

/-- Constant `DEFAULT_TASK_DURATION = 300.0` from `worker.py`. -/
def DEFAULT_TASK_DURATION : ℚ := 300

/-- The raw dictionary of one entry of `response["Messages"]`, restricted
to the three fields `SQSMessage` requires (`None` models a missing key). -/
structure RawSQSMessage where
  messageId : Option String
  body : Option String
  receiptHandle : Option String
deriving Repr, DecidableEq

/-- The validated `SQSMessage` model from `worker.py` (required fields). -/
structure SQSMessage where
  message_id : String
  body : String
  receipt_handle : String
deriving Repr, DecidableEq

/-- Pydantic construction `SQSMessage(**raw)`: succeeds iff all of
`MessageId`, `Body`, `ReceiptHandle` are present, else raises a
`ValidationError`. -/
def SQSMessage.validate (raw : RawSQSMessage) : Except String SQSMessage :=
  match raw.messageId, raw.body, raw.receiptHandle with
  | some m, some b, some r => .ok { message_id := m, body := b, receipt_handle := r }
  | _, _, _ => .error "ValidationError: missing required field"

/-- Exception classes distinguished by `Worker.run`'s `except` clauses. -/
inductive PyError
  | keyboardInterrupt
  | clientError (code : String)
  | botoCoreError
  | validationError
  | genericError
deriving Repr, DecidableEq

/-- Outcome of one `receive_message` call, as the loop observes it. -/
inductive ReceiveResult
  | empty
  | message (raw : RawSQSMessage)
  | raises (e : PyError)
deriving Repr, DecidableEq

/-- Outcome of one `delete_message` call against the queue. -/
inductive DeleteOutcome
  | success
  | clientError (code : String)
  | otherError
deriving Repr, DecidableEq

/-- Externally observable calls the worker issues. -/
inductive Action
  | receive
  | deleteMsg (receipt_handle : String)
  | sleep (seconds : ℚ)
deriving Repr, DecidableEq

/-- The `fatal_errors` table of `Worker._handle_client_error`. -/
def fatal_errors : List String :=
  ["QueueDoesNotExist", "InvalidAccessKeyId", "SignatureDoesNotMatch", "AccessDenied"]

/-- Method `Worker._handle_client_error`: fatal codes mark `status = ERROR` and
re-raise; any other code logs, sleeps 5 seconds, and returns normally. -/
def _handle_client_error (code : String) (state : WorkerState) :
    WorkerState × List Action × Option PyError :=
  if code ∈ fatal_errors then
    ({ state with status_flag := ERROR }, [], some (.clientError code))
  else
    (state, [.sleep 5], none)

/-- Method `Worker._delete_message`: always attempts the delete call; a
`ReceiptHandleIsInvalid` client error is swallowed with a warning, any
other client error is re-raised, and non-client errors propagate uncaught.
The shared state is untouched on every path. -/
def _delete_message (message_id receipt_handle : String) (outcome : DeleteOutcome)
    (state : WorkerState) : WorkerState × List Action × Option PyError :=
  match outcome with
  | .success => (state, [.deleteMsg receipt_handle], none)
  | .clientError code =>
      if code = "ReceiptHandleIsInvalid" then (state, [.deleteMsg receipt_handle], none)
      else (state, [.deleteMsg receipt_handle], some (.clientError code))
  | .otherError => (state, [.deleteMsg receipt_handle], some .genericError)

/-- Environment of one `_process_message` call: the two `time.time()`
reads, whether the (placeholder) processing body raises, and the queue's
response to the delete call. -/
structure ProcessEnv where
  startNow : ℚ
  endNow : ℚ
  procRaises : Bool
  deleteOutcome : DeleteOutcome
deriving Repr, DecidableEq

/-- The write at the top of `_process_message`: task timing set before any
work. -/
def setTaskTiming (startNow : ℚ) (s : WorkerState) : WorkerState :=
  { s with task_start_time := startNow
           expected_task_duration := DEFAULT_TASK_DURATION }

/-- The `finally` block of `_process_message`: clear task timing and stamp
the heartbeat, on success and on exception alike. -/
def clearTaskTiming (endNow : ℚ) (s : WorkerState) : WorkerState :=
  { s with task_start_time := 0
           expected_task_duration := 0
           last_heartbeat := endNow }

/-- Method `Worker._process_message`: set task timing, run the (placeholder)
body inside `try`/`finally` so the timing is cleared and the heartbeat
stamped regardless of outcome, then attempt deletion — which is skipped
only when the body itself raised. -/
def _process_message (msg : SQSMessage) (env : ProcessEnv) (state : WorkerState) :
    WorkerState × List Action × Option PyError :=
  let s1 := setTaskTiming env.startNow state
  let s2 := clearTaskTiming env.endNow s1
  if env.procRaises then (s2, [], some .genericError)
  else _delete_message msg.message_id msg.receipt_handle env.deleteOutcome s2

/-- Input of one iteration of the `while self.running` loop: the
`time.time()` heartbeat stamp, the receive outcome, and (when a message is
processed) its processing environment. -/
structure IterInput where
  now : ℚ
  recv : ReceiveResult
  procEnv : ProcessEnv
deriving Repr, DecidableEq

/-- Whether the iteration lets the loop continue or an exception escapes
the `while` loop into `run`'s `finally`. -/
inductive IterOutcome
  | next
  | raised (e : PyError)
deriving Repr, DecidableEq

/-- The body of the inner `try` of `Worker.run`: stamp the heartbeat,
receive, validate, process. Returns the error reaching the `except`
clauses, if any. -/
def tryBody (inp : IterInput) (state : WorkerState) :
    WorkerState × List Action × Option PyError :=
  let s0 := { state with last_heartbeat := inp.now }
  match inp.recv with
  | .empty => (s0, [.receive], none)
  | .raises e => (s0, [.receive], some e)
  | .message raw =>
      match SQSMessage.validate raw with
      | .error _ => (s0, [.receive], some .validationError)
      | .ok msg =>
          let (s1, acts, err) := _process_message msg inp.procEnv s0
          (s1, .receive :: acts, err)

/-- The `except` clauses of `Worker.run`: `KeyboardInterrupt` re-raises,
`ClientError` goes through `_handle_client_error`, `BotoCoreError` and any
other exception log, sleep 5 seconds, and let the loop continue. -/
def handleIterError (e : PyError) (state : WorkerState) :
    WorkerState × List Action × IterOutcome :=
  match e with
  | .keyboardInterrupt => (state, [], .raised e)
  | .clientError code =>
      let (s1, acts, err) := _handle_client_error code state
      match err with
      | some e1 => (s1, acts, .raised e1)
      | none => (s1, acts, .next)
  | .botoCoreError => (state, [.sleep 5], .next)
  | .validationError => (state, [.sleep 5], .next)
  | .genericError => (state, [.sleep 5], .next)

/-- One full iteration of the `while self.running` loop. -/
def runStep (inp : IterInput) (state : WorkerState) :
    WorkerState × List Action × IterOutcome :=
  let (s1, acts, err) := tryBody inp state
  match err with
  | none => (s1, acts, .next)
  | some e =>
      let (s2, acts2, out) := handleIterError e s1
      (s2, acts ++ acts2, out)

/-- The `while self.running` loop of `Worker.run`: the input list ends when
`stop()` has flipped `running` to false (clean exit); an uncaught exception
cuts the run short. Returns the exception escaping the loop, if any. -/
def runLoop : List IterInput → WorkerState → WorkerState × List Action × Option PyError
  | [], s => (s, [], none)
  | inp :: rest, s =>
      match runStep inp s with
      | (s1, acts, .raised e) => (s1, acts, some e)
      | (s1, acts, .next) =>
          let (s2, acts2, err) := runLoop rest s1
          (s2, acts ++ acts2, err)

/-- Method `Worker.run`: startup writes (`status = RUNNING`, heartbeat stamp),
the polling loop, then the `finally` block, which writes
`status = STOPPED` unconditionally before `run` returns or re-raises. -/
def run (startNow : ℚ) (inputs : List IterInput) (state : WorkerState) :
    WorkerState × List Action × Option PyError :=
  let s0 := { state with status_flag := RUNNING, last_heartbeat := startNow }
  let (s1, acts, err) := runLoop inputs s0
  ({ s1 with status_flag := STOPPED }, acts, err)

/-- The data-model invariant on the two task-timing fields: both zero
(idle) or both positive (processing). -/
def taskFieldsConsistent (s : WorkerState) : Prop :=
  (s.task_start_time = 0 ∧ s.expected_task_duration = 0) ∨
  (0 < s.task_start_time ∧ 0 < s.expected_task_duration)

end Worker

set_option maxRecDepth 8000

namespace Worker

/-- Claim C9: configuration validation of the long-poll wait time accepts
`v` and returns it unchanged exactly when `0 ≤ v ≤ 20`, and raises a
validation error for every `v` outside that range. -/
theorem validate_wait_time_spec (v : Int) :
    (0 ≤ v ∧ v ≤ 20 → validate_wait_time v = .ok v) ∧
    (v < 0 ∨ 20 < v → ∃ msg, validate_wait_time v = .error msg) := by
  unfold validate_wait_time
  constructor
  · intro h
    simp [h]
  · intro h
    have hne : ¬ (0 ≤ v ∧ v ≤ 20) := by omega
    simp [hne]

/-- Claim C9, witness: the bounds accept 20 and reject 21. -/
theorem validate_wait_time_spec_witness :
    validate_wait_time 20 = .ok 20 ∧ ∃ msg, validate_wait_time 21 = .error msg :=
  ⟨(validate_wait_time_spec 20).1 (by decide),
   (validate_wait_time_spec 21).2 (by decide)⟩

/-- Claim C7: deleting with an already-invalid handle
(`ReceiptHandleIsInvalid`) does not raise and leaves the shared state —
in particular the status field — unchanged; every other delete failure is
re-raised; the shared state is never written by `_delete_message`. -/
theorem delete_message_spec (mid rh : String) (s : WorkerState)
    (outcome : DeleteOutcome) :
    (_delete_message mid rh (.clientError "ReceiptHandleIsInvalid") s =
      (s, [.deleteMsg rh], none)) ∧
    (∀ code, code ≠ "ReceiptHandleIsInvalid" →
      _delete_message mid rh (.clientError code) s =
        (s, [.deleteMsg rh], some (.clientError code))) ∧
    (_delete_message mid rh .otherError s =
      (s, [.deleteMsg rh], some .genericError)) ∧
    ((_delete_message mid rh outcome s).1 = s) := by
  refine ⟨rfl, fun code hcode => ?_, rfl, ?_⟩
  · simp [_delete_message, hcode]
  · cases outcome with
    | success => rfl
    | clientError code =>
        by_cases h : code = "ReceiptHandleIsInvalid" <;> simp [_delete_message, h]
    | otherError => rfl

/-- Claim C7, witness: at a concrete message, an expired-handle delete
returns cleanly without touching the state, and an `InternalError` delete
failure is re-raised. -/
theorem delete_message_spec_witness :
    (_delete_message "m1" "r1" (.clientError "ReceiptHandleIsInvalid")
        create_shared_state = (create_shared_state, [.deleteMsg "r1"], none)) ∧
    (_delete_message "m1" "r1" (.clientError "InternalError") create_shared_state =
      (create_shared_state, [.deleteMsg "r1"], some (.clientError "InternalError"))) :=
  ⟨(delete_message_spec "m1" "r1" create_shared_state .success).1,
   (delete_message_spec "m1" "r1" create_shared_state .success).2.1
     "InternalError" (by decide)⟩

/-- Claim C6: `_process_message` sets both task-timing fields to positive
values before any work, and its `finally` block restores
`task_start_time = 0`, `expected_task_duration = 0` and stamps the
heartbeat regardless of whether processing succeeds or raises; the
both-zero-or-both-positive invariant holds on the resulting state. -/
theorem process_message_timing_spec (msg : SQSMessage) (env : ProcessEnv)
    (s : WorkerState) (hstart : 0 < env.startNow) :
    (0 < (setTaskTiming env.startNow s).task_start_time ∧
      0 < (setTaskTiming env.startNow s).expected_task_duration) ∧
    ((_process_message msg env s).1.task_start_time = 0 ∧
      (_process_message msg env s).1.expected_task_duration = 0 ∧
      (_process_message msg env s).1.last_heartbeat = env.endNow) ∧
    taskFieldsConsistent (_process_message msg env s).1 := by
  have hdur : (0 : ℚ) < DEFAULT_TASK_DURATION := by norm_num [DEFAULT_TASK_DURATION]
  have hfinal : (_process_message msg env s).1 =
      clearTaskTiming env.endNow (setTaskTiming env.startNow s) := by
    unfold _process_message
    by_cases h : env.procRaises
    · simp [h]
    · simp [h]
      cases env.deleteOutcome with
      | success => rfl
      | clientError code =>
          by_cases hc : code = "ReceiptHandleIsInvalid" <;> simp [_delete_message, hc]
      | otherError => rfl
  refine ⟨⟨hstart, hdur⟩, ?_, ?_⟩
  · rw [hfinal]
    exact ⟨rfl, rfl, rfl⟩
  · rw [hfinal]
    exact Or.inl ⟨rfl, rfl⟩

/-- Helper: `_delete_message` returns the shared state unchanged on every
path. -/
theorem delete_message_state_eq (mid rh : String) (outcome : DeleteOutcome)
    (s : WorkerState) : (_delete_message mid rh outcome s).1 = s := by
  cases outcome with
  | success => rfl
  | clientError code =>
      by_cases h : code = "ReceiptHandleIsInvalid" <;> simp [_delete_message, h]
  | otherError => rfl

/-- Helper: the state `_process_message` leaves behind is the one written
by its `finally` block, on every path. -/
theorem process_message_state_eq (msg : SQSMessage) (env : ProcessEnv)
    (s : WorkerState) :
    (_process_message msg env s).1 =
      clearTaskTiming env.endNow (setTaskTiming env.startNow s) := by
  unfold _process_message
  by_cases h : env.procRaises
  · simp [h]
  · simp [h, delete_message_state_eq]

/-- Claim C6, witness: a concrete message processed at time 100 with the
cleanup stamping the heartbeat at 105. -/
theorem process_message_timing_spec_witness :
    (0 < (setTaskTiming 100 create_shared_state).task_start_time ∧
      0 < (setTaskTiming 100 create_shared_state).expected_task_duration) ∧
    ((_process_message ⟨"m", "b", "r"⟩ ⟨100, 105, false, .success⟩
        create_shared_state).1.task_start_time = 0 ∧
      (_process_message ⟨"m", "b", "r"⟩ ⟨100, 105, false, .success⟩
        create_shared_state).1.expected_task_duration = 0 ∧
      (_process_message ⟨"m", "b", "r"⟩ ⟨100, 105, false, .success⟩
        create_shared_state).1.last_heartbeat = 105) ∧
    taskFieldsConsistent (_process_message ⟨"m", "b", "r"⟩
      ⟨100, 105, false, .success⟩ create_shared_state).1 :=
  process_message_timing_spec ⟨"m", "b", "r"⟩ ⟨100, 105, false, .success⟩
    create_shared_state (by norm_num)

/-- Claim C5, counterexample: three consecutive transient (`Throttling`)
receive failures. Each failure is absorbed by a separate loop iteration —
stamping the heartbeat, so the retries are visible to the state machine —
with a constant 5-second pause, not a growing exponential backoff; no
attempt budget exhausts and no failure ever surfaces (the loop result
carries no error). -/
theorem transient_no_backoff_counterexample :
    runLoop
        [⟨1, .raises (.clientError "Throttling"), ⟨0, 0, false, .success⟩⟩,
         ⟨2, .raises (.clientError "Throttling"), ⟨0, 0, false, .success⟩⟩,
         ⟨3, .raises (.clientError "Throttling"), ⟨0, 0, false, .success⟩⟩]
        { create_shared_state with status_flag := RUNNING } =
      ({ create_shared_state with status_flag := RUNNING, last_heartbeat := 3 },
       [.receive, .sleep 5, .receive, .sleep 5, .receive, .sleep 5], none) := by
  rfl

/-- Claim C5, amended: a transient (non-fatal) client error from the
receive call is handled by the loop itself: the iteration logs, sleeps a
constant 5 seconds, and the loop continues with the state unchanged apart
from the heartbeat stamp — unbounded retries with constant delay, one per
loop iteration. -/
theorem transient_receive_error_spec (code : String) (inp : IterInput)
    (s : WorkerState) (hfatal : code ∉ fatal_errors)
    (hrecv : inp.recv = .raises (.clientError code)) :
    runStep inp s =
      ({ s with last_heartbeat := inp.now }, [.receive, .sleep 5], .next) := by
  rcases inp with ⟨now, recv, env⟩
  simp only at hrecv
  subst hrecv
  simp [runStep, tryBody, handleIterError, _handle_client_error, hfatal]

/-- Claim C5 (amended), witness: a concrete `Throttling` receive failure
at time 7 from the fresh state. -/
theorem transient_receive_error_spec_witness :
    runStep ⟨7, .raises (.clientError "Throttling"), ⟨0, 0, false, .success⟩⟩
        create_shared_state =
      ({ create_shared_state with last_heartbeat := 7 },
       [.receive, .sleep 5], .next) :=
  transient_receive_error_spec "Throttling"
    ⟨7, .raises (.clientError "Throttling"), ⟨0, 0, false, .success⟩⟩
    create_shared_state (by decide) rfl

/-- Claim C10: a received message missing any of `MessageId`, `Body` or
`ReceiptHandle` fails validation; the error is absorbed by the loop's
catch-all handler (sleep 5 seconds, continue), and no delete call is
issued for that message. -/
theorem invalid_message_spec (inp : IterInput) (raw : RawSQSMessage)
    (s : WorkerState) (hrecv : inp.recv = .message raw)
    (hmiss : raw.messageId = none ∨ raw.body = none ∨ raw.receiptHandle = none) :
    runStep inp s =
      ({ s with last_heartbeat := inp.now }, [.receive, .sleep 5], .next) ∧
    ∀ rh, Action.deleteMsg rh ∉ (runStep inp s).2.1 := by
  have hval : SQSMessage.validate raw =
      .error "ValidationError: missing required field" := by
    rcases raw with ⟨mi, bo, rh⟩
    cases mi <;> cases bo <;> cases rh <;> simp_all [SQSMessage.validate]
  have hstep : runStep inp s =
      ({ s with last_heartbeat := inp.now }, [.receive, .sleep 5], .next) := by
    rcases inp with ⟨now, recv, env⟩
    simp only at hrecv
    subst hrecv
    simp [runStep, tryBody, hval, handleIterError]
  refine ⟨hstep, fun rh => ?_⟩
  rw [hstep]
  simp

/-- Claim C10, witness: a raw message carrying only a body, received at
time 9 from the fresh state. -/
theorem invalid_message_spec_witness :
    runStep ⟨9, .message ⟨none, some "b", none⟩, ⟨0, 0, false, .success⟩⟩
        create_shared_state =
      ({ create_shared_state with last_heartbeat := 9 },
       [.receive, .sleep 5], .next) ∧
    ∀ rh, Action.deleteMsg rh ∉
      (runStep ⟨9, .message ⟨none, some "b", none⟩, ⟨0, 0, false, .success⟩⟩
        create_shared_state).2.1 :=
  invalid_message_spec
    ⟨9, .message ⟨none, some "b", none⟩, ⟨0, 0, false, .success⟩⟩
    ⟨none, some "b", none⟩ create_shared_state rfl (Or.inl rfl)

/-- Helper: `tryBody` never writes the `ready` cell. -/
theorem tryBody_ready (inp : IterInput) (s : WorkerState) :
    ((tryBody inp s).1).ready = s.ready := by
  rcases inp with ⟨now, recv, env⟩
  cases recv with
  | empty => rfl
  | raises e => rfl
  | message raw =>
      cases hval : SQSMessage.validate raw with
      | error msg => simp [tryBody, hval]
      | ok msg =>
          simp [tryBody, hval, process_message_state_eq, clearTaskTiming,
            setTaskTiming]

/-- Helper: the `except` clauses never write the `ready` cell. -/
theorem handleIterError_ready (e : PyError) (s : WorkerState) :
    ((handleIterError e s).1).ready = s.ready := by
  cases e with
  | keyboardInterrupt => rfl
  | clientError code =>
      by_cases h : code ∈ fatal_errors <;>
        simp [handleIterError, _handle_client_error, h]
  | botoCoreError => rfl
  | validationError => rfl
  | genericError => rfl

/-- Helper: one loop iteration never writes the `ready` cell. -/
theorem runStep_ready (inp : IterInput) (s : WorkerState) :
    ((runStep inp s).1).ready = s.ready := by
  have h1 := tryBody_ready inp s
  unfold runStep
  rcases htb : tryBody inp s with ⟨s1, acts, err⟩
  rw [htb] at h1
  cases err with
  | none => simpa using h1
  | some e =>
      have h2 := handleIterError_ready e s1
      rcases hhe : handleIterError e s1 with ⟨s2, acts2, out⟩
      rw [hhe] at h2
      simp_all

/-- Helper: the whole polling loop never writes the `ready` cell. -/
theorem runLoop_ready (inputs : List IterInput) (s : WorkerState) :
    ((runLoop inputs s).1).ready = s.ready := by
  induction inputs generalizing s with
  | nil => rfl
  | cons inp rest ih =>
      have h1 := runStep_ready inp s
      unfold runLoop
      rcases hrs : runStep inp s with ⟨s1, acts, out⟩
      rw [hrs] at h1
      cases out with
      | raised e => simpa using h1
      | next =>
          have h2 := ih s1
          rcases hrl : runLoop rest s1 with ⟨s2, acts2, err⟩
          rw [hrl] at h2
          simp_all

/-- Claim C4, counterexample: one receive call that returns without
raising (an empty poll), yet `ready` is still 0 — the loop never sets it,
contradicting the claimed false→true transition. -/
theorem ready_never_set_counterexample :
    create_shared_state.ready = 0 ∧
    ((run 1 [⟨2, .empty, ⟨0, 0, false, .success⟩⟩] create_shared_state).1).ready
      = 0 := by
  exact ⟨rfl, rfl⟩

/-- Claim C4, amended: the consumer loop never writes the `ready` field at
all — after any run, over any receive outcomes, `ready` equals its initial
value (0 from `create_shared_state`), so it undergoes zero false→true
transitions and, vacuously, never reverts. -/
theorem run_preserves_ready (startNow : ℚ) (inputs : List IterInput)
    (s : WorkerState) : ((run startNow inputs s).1).ready = s.ready := by
  unfold run
  have h := runLoop_ready inputs
    { s with status_flag := RUNNING, last_heartbeat := startNow }
  rcases hrl : runLoop inputs
      { s with status_flag := RUNNING, last_heartbeat := startNow }
    with ⟨s1, acts, err⟩
  rw [hrl] at h
  simp only [hrl]
  simpa using h

/-- Claim C3: a classified-fatal receive error (`AccessDenied`) does set
`status = ERROR` inside the loop and the exception escapes, but `run`'s
`finally` block then writes `status = STOPPED` unconditionally: at the
moment `run` re-raises, the status is `STOPPED` (0), not `ERROR` (-1). -/
theorem fatal_error_status_clobbered :
    ((runLoop [⟨2, .raises (.clientError "AccessDenied"), ⟨0, 0, false, .success⟩⟩]
        { create_shared_state with status_flag := RUNNING, last_heartbeat := 1 }).1).status_flag
      = ERROR ∧
    (runLoop [⟨2, .raises (.clientError "AccessDenied"), ⟨0, 0, false, .success⟩⟩]
        { create_shared_state with status_flag := RUNNING, last_heartbeat := 1 }).2.2
      = some (.clientError "AccessDenied") ∧
    ((run 1 [⟨2, .raises (.clientError "AccessDenied"), ⟨0, 0, false, .success⟩⟩]
        create_shared_state).1).status_flag = STOPPED ∧
    (run 1 [⟨2, .raises (.clientError "AccessDenied"), ⟨0, 0, false, .success⟩⟩]
        create_shared_state).2.2 = some (.clientError "AccessDenied") := by
  exact ⟨rfl, rfl, rfl, rfl⟩

/-- Helper: the verdict field of the diagnostics record is the conjunction
of the status check and the negated overtime flag. -/
theorem liveness_healthy_eq (now : ℚ) (state : WorkerState) (config : WorkerConfig) :
    (_get_liveness_status now state config).healthy =
      (decide ((_get_liveness_status now state config).worker_status_flag = RUNNING)
        && !(_get_liveness_status now state config).is_overtime) := by
  unfold _get_liveness_status
  rfl

/-- Claim C1: the evaluator reports healthy exactly when the status flag is
`RUNNING` and overtime is false; with no task in flight, overtime is the
heartbeat age exceeding `heartbeat_timeout`; a `RUNNING` snapshot with no
task and heartbeat age within the timeout is healthy; a snapshot whose
status is not `RUNNING` is unhealthy regardless of all timing fields. -/
theorem health_verdict_spec (now : ℚ) (state : WorkerState) (config : WorkerConfig) :
    ((_get_liveness_status now state config).healthy = true ↔
      state.status_flag = RUNNING ∧
        (_get_liveness_status now state config).is_overtime = false) ∧
    (¬ (0 < state.task_start_time ∧ 0 < state.expected_task_duration) →
      ((_get_liveness_status now state config).is_overtime = true ↔
        heartbeat_age now state.last_heartbeat
          > (config.heartbeat_timeout : WithTop ℚ))) ∧
    (state.status_flag = RUNNING → state.task_start_time = 0 →
      heartbeat_age now state.last_heartbeat
          ≤ (config.heartbeat_timeout : WithTop ℚ) →
      (_get_liveness_status now state config).healthy = true) ∧
    (state.status_flag ≠ RUNNING →
      (_get_liveness_status now state config).healthy = false) := by
  refine ⟨?_, ?_, ?_, ?_⟩
  · unfold _get_liveness_status
    simp [Bool.and_eq_true, Bool.not_eq_true']
  · intro h
    unfold _get_liveness_status
    by_cases h1 : 0 < state.task_start_time <;>
      by_cases h2 : 0 < state.expected_task_duration <;>
        simp_all
  · intro h1 h2 h3
    unfold _get_liveness_status
    simp [h1, h2, not_lt.mpr h3]
  · intro h
    unfold _get_liveness_status
    simp [h]

/-- Claim C1, witness: a running snapshot with an idle task bracket and a
5-second heartbeat age is healthy; the fresh (stopped) snapshot is
unhealthy. -/
theorem health_verdict_spec_witness :
    (_get_liveness_status 10 ⟨1, 5, 0, 0, 0⟩ {}).healthy = true ∧
    (_get_liveness_status 10 create_shared_state {}).healthy = false :=
  ⟨(health_verdict_spec 10 ⟨1, 5, 0, 0, 0⟩ {}).2.2.1 rfl rfl
      (by with_unfolding_all decide),
   (health_verdict_spec 10 create_shared_state {}).2.2.2 (by decide)⟩

/-- Claim C2: with status `RUNNING`, a task in flight and expected duration
`D > 0`, elapsed time under `D` times the buffer yields a healthy verdict
(whatever the raw heartbeat age), and elapsed time over that budget yields
an unhealthy verdict with the overtime flag set. -/
theorem adaptive_timeout_spec (now : ℚ) (state : WorkerState)
    (config : WorkerConfig) (D : ℚ) (hrun : state.status_flag = RUNNING)
    (hts : 0 < state.task_start_time) (hD : state.expected_task_duration = D)
    (hDpos : 0 < D) :
    (now - state.task_start_time < D * config.task_timeout_buffer →
      (_get_liveness_status now state config).healthy = true) ∧
    (now - state.task_start_time > D * config.task_timeout_buffer →
      (_get_liveness_status now state config).healthy = false ∧
      (_get_liveness_status now state config).is_overtime = true) := by
  subst hD
  constructor
  · intro hlt
    unfold _get_liveness_status
    simp [hts, hDpos, hrun, not_lt.mpr hlt.le]
  · intro hgt
    unfold _get_liveness_status
    simp [hts, hDpos, hrun, hgt]

/-- Claim C2, witness: task started at time 5 with a 300-second budget and
the default 1.5 buffer (450-second allowance); at elapsed 400 the verdict
is healthy even though the heartbeat age (400) exceeds the 120-second
heartbeat timeout, and at elapsed 460 it is unhealthy and overtime. -/
theorem adaptive_timeout_spec_witness :
    (_get_liveness_status 405 ⟨1, 5, 0, 5, 300⟩ {}).healthy = true ∧
    ((_get_liveness_status 465 ⟨1, 5, 0, 5, 300⟩ {}).healthy = false ∧
      (_get_liveness_status 465 ⟨1, 5, 0, 5, 300⟩ {}).is_overtime = true) :=
  ⟨(adaptive_timeout_spec 405 ⟨1, 5, 0, 5, 300⟩ {} 300 rfl (by decide) rfl
      (by decide)).1 (by with_unfolding_all decide),
   (adaptive_timeout_spec 465 ⟨1, 5, 0, 5, 300⟩ {} 300 rfl (by decide) rfl
      (by decide)).2 (by with_unfolding_all decide)⟩

/-- Claim C8: the endpoint answers 200 with the ok payload whose details
are exactly the heartbeat age and the long-task flag when the evaluator
reports healthy; otherwise it answers 503 with the reason assembled from
the failed sub-conditions (never the dead `"unknown"` fallback) and the
full diagnostics; the status code is 200 exactly on healthy verdicts. -/
theorem health_endpoint_spec (now : ℚ) (state : WorkerState)
    (config : WorkerConfig) :
    ((_get_liveness_status now state config).healthy = true →
      _build_health_response now state config =
        (.ok serviceName
          (_get_liveness_status now state config).heartbeat_age_seconds
          (_get_liveness_status now state config).is_long_task_running, 200)) ∧
    ((_get_liveness_status now state config).healthy = false →
      reasonParts (_get_liveness_status now state config) ≠ [] ∧
      _build_health_response now state config =
        (.unavailable serviceName
          (String.intercalate ", "
            (reasonParts (_get_liveness_status now state config)))
          (_get_liveness_status now state config), 503)) ∧
    ((_build_health_response now state config).2 = 200 ↔
      (_get_liveness_status now state config).healthy = true) := by
  have heq := liveness_healthy_eq now state config
  have hparts : (_get_liveness_status now state config).healthy = false →
      reasonParts (_get_liveness_status now state config) ≠ [] := by
    intro h
    rw [h] at heq
    unfold reasonParts
    by_cases hf : (_get_liveness_status now state config).worker_status_flag
        = RUNNING
    · have hov : (_get_liveness_status now state config).is_overtime = true := by
        simp [hf] at heq
        exact heq
      simp [hf, hov]
    · simp [hf]
  refine ⟨?_, ?_, ?_⟩
  · intro h
    unfold _build_health_response
    simp [h]
  · intro h
    refine ⟨hparts h, ?_⟩
    unfold _build_health_response
    simp [h, hparts h]
  · by_cases h : (_get_liveness_status now state config).healthy = true
    · unfold _build_health_response
      simp [h]
    · have h0 : (_get_liveness_status now state config).healthy = false := by
        simpa using h
      unfold _build_health_response
      simp [h0]

/-- Claim C8, witness: a healthy running snapshot gets the 200 payload with
exactly the two detail fields; the fresh (stopped) snapshot gets 503 with a
nonempty reason list and the full diagnostics. -/
theorem health_endpoint_spec_witness :
    _build_health_response 10 ⟨1, 5, 0, 0, 0⟩ {} =
      (.ok serviceName
        (_get_liveness_status 10 ⟨1, 5, 0, 0, 0⟩ {}).heartbeat_age_seconds
        (_get_liveness_status 10 ⟨1, 5, 0, 0, 0⟩ {}).is_long_task_running, 200) ∧
    (reasonParts (_get_liveness_status 10 create_shared_state {}) ≠ [] ∧
      _build_health_response 10 create_shared_state {} =
        (.unavailable serviceName
          (String.intercalate ", "
            (reasonParts (_get_liveness_status 10 create_shared_state {})))
          (_get_liveness_status 10 create_shared_state {}), 503)) :=
  ⟨(health_endpoint_spec 10 ⟨1, 5, 0, 0, 0⟩ {}).1 (by with_unfolding_all decide),
   (health_endpoint_spec 10 create_shared_state {}).2.1 (by decide)⟩

end Worker
